import Mathlib

/-! # pmond process supervision engine (`pmond/proc.go`)

A shallow embedding of the managed-process state machine, the process
registry and the graceful self-restart of `pmond/proc.go`.

Modelling conventions.

* A `*monitorProc` is a record; a method call is a function from the record
  before the call to the record after it, the value it returns and the list
  of effects it performed, in order (`Event`).  One method call is executed
  without interleaving of other goroutines; the one place where the source
  relies on another goroutine (the polling loop of `kill`, which waits for the
  exit watcher) takes the number of polls as an input.
* Everything the operating system decides (the clock, the outcome of a TCP
  dial, the outcome of `exec.Cmd.Start`) is an input of the function.
* A Go run-time panic (nil dereference, index out of range) is `Except.error`.
* `int64` arithmetic is arithmetic on `Int` wrapped to 64 bits.
-/

namespace Pmond

/-! ## Data model -/

/-- Run-time panics of the Go code. -/
inductive Fault where
  | nilDeref
  | indexOutOfRange
  deriving DecidableEq, Repr

deriving instance DecidableEq for Except

/-- The two kinds of `io.Writer` the engine writes to: the writer supplied by
the caller of an operator command and the `&LogWriter{}` that `check` and the
monitor loop pass down. -/
inductive Writer where
  | caller
  | logWriter
  deriving DecidableEq, Repr

/-- An `*exec.Cmd`: `ref` is the identity of the allocated object (what the
pointer comparison `cmd == mproc.procCmd` compares), `pid` is
`cmd.Process.Pid` of the spawned OS process. -/
structure Cmd where
  ref : Nat
  pid : Int
  deriving DecidableEq, Repr

/-- A `*ProcOutput`: target file name and whether the rotating file is open
(`log != nil`). -/
structure ProcOutput where
  fname : String
  logOpen : Bool
  deriving DecidableEq, Repr

/-- Modelled from the spec: the type `checkConfig` of the health-check block
is declared outside `proc.go`; the spec gives it an address, a period in
seconds and a timeout in seconds.  `Period` and `Timeout` are Go integers, so
the conversion `int64(Period)` keeps the value. -/
structure checkConfig where
  Addr : String
  Period : Int
  Timeout : Int
  deriving DecidableEq, Repr

/-- Modelled from the spec: one entry of `Cfg.Monitor`, declared outside
`proc.go`: a command line, environment overrides, a log directory and a
health-check block. -/
structure ProcConfig where
  Proc : String
  Env : List String
  LogDir : String
  Check : checkConfig
  deriving DecidableEq, Repr

/-- The struct `monitorProc` (the mutex `lk` has no state of its own in a
model without interleaving). -/
structure monitorProc where
  processName : String
  args : List String
  env : List String
  logDir : String
  procCmd : Option Cmd
  output : Option ProcOutput
  autoRestart : Bool
  checkCfg : checkConfig
  lastCheckTime : Int
  deriving DecidableEq, Repr

/-- Observable effects of the engine, in the order they are performed. -/
inductive Event where
  /-- The text `s` is written to `wr` (`io.WriteString`, `wr.Write`, `fmt.Fprintf`). -/
  | write (w : Writer) (s : String)
  /-- A line logged with `glog.Infof`. -/
  | glogInfo (s : String)
  /-- A line logged with `glog.Errorf`. -/
  | glogError (s : String)
  /-- The call `mproc.output.Close()` on the sink with this file name. -/
  | closeOutput (fname : String)
  /-- The task `go io.Copy(mproc.output, pipe)` into the sink with this file name. -/
  | goCopy (fname : String) (stream : String)
  /-- The call `procCmd.Start()` on the object `ref`; `pid` is `none` when it failed. -/
  | exec (ref : Nat) (path : String) (args : List String) (env : List String)
      (pid : Option Int)
  /-- The exit watcher `go mproc.wait()` is scheduled. -/
  | goWait
  /-- The call `cmd.Wait()` returned for this handle. -/
  | cmdWait (c : Cmd)
  /-- The call `procCmd.Process.Kill()`. -/
  | processKill (c : Cmd)
  /-- The call `time.Sleep(time.Second)`. -/
  | sleepSecond
  /-- The call `net.DialTimeout("tcp", addr, timeout seconds)`. -/
  | dial (addr : String) (timeout : Int)
  /-- The probe connection is closed (`c.Close()`). -/
  | connClose
  /-- The call `cmd.Start()` of the re-executed supervisor; `ok` is false when it failed. -/
  | launch (path : String) (args : List String) (ok : Bool)
  deriving DecidableEq, Repr

/-- What the operating system answers to one call of `start`. -/
structure StartEnv where
  /-- The result of `os.Environ()`. -/
  environ : List String
  /-- identity of the object `exec.Command` allocates -/
  newRef : Nat
  /-- error of `StderrPipe()`, if any -/
  stderrPipeErr : Option String
  /-- error of `StdoutPipe()`, if any -/
  stdoutPipeErr : Option String
  /-- The result of `procCmd.Start()`: the error text, or the pid of the new process. -/
  startResult : Except String Int

/-- What the operating system answers to one call of `check`. -/
structure CheckEnv where
  /-- The result of `time.Now().Unix()`, an `int64`. -/
  now : Int
  /-- error of `net.DialTimeout`, `none` when the connection is made -/
  dialErr : Option String
  /-- answers to the `start` that `check` may call -/
  startEnv : StartEnv

/-! ## Library functions used by the code -/

/-- Two's-complement wrap to `int64`. -/
def wrap64 (x : Int) : Int := (x + 2 ^ 63) % 2 ^ 64 - 2 ^ 63

/-- The `int64` subtraction `a - b`. -/
def sub64 (a b : Int) : Int := wrap64 (a - b)

/-- Go's `fmt.Sprintf("%v", xs)` for a `[]string`. -/
def fmtStrings (xs : List String) : String := "[" ++ " ".intercalate xs ++ "]"

/-- Go's `fmt.Sprintf("%d", n)`. -/
def fmtInt (n : Int) : String := toString n

/-- The characters after the last `/` of a path without trailing slashes. -/
def lastElem : List Char → List Char → List Char
  | [], acc => acc
  | c :: cs, acc => if c = '/' then lastElem cs [] else lastElem cs (acc ++ [c])

/-- Removes trailing `/` characters. -/
def stripTrailingSlashes (cs : List Char) : List Char :=
  (cs.reverse.dropWhile (fun c => c = '/')).reverse

/-- Go's `filepath.Base` on a Unix system. -/
def filepathBase (path : String) : String :=
  if path.data = [] then "."
  else
    let p := lastElem (stripTrailingSlashes path.data) []
    if p = [] then "/" else String.mk p

/-! ## monitorProc -/

/-- The method `isRunning`. -/
def monitorProc.isRunning (mproc : monitorProc) : Bool :=
  mproc.procCmd.isSome

/-- The part of `wait` after `cmd.Wait()` has returned for the captured
handle `cmd`, applied to the process as it is at that moment. -/
def monitorProc.waitExit (mproc : monitorProc) (cmd : Cmd) : monitorProc :=
  if some cmd = mproc.procCmd then { mproc with procCmd := none } else mproc

/-- The method `wait`.  `mproc` is the process when the watcher starts,
`atExit` the same process when the blocking `cmd.Wait()` returns (other
operations may have run in between). -/
def monitorProc.wait (mproc atExit : monitorProc) :
    Except Fault (monitorProc × Bool × List Event) :=
  if !mproc.isRunning then
    .ok (mproc, false, [])
  else
    match mproc.procCmd with
    | none => .error .nilDeref
    | some cmd =>
      .ok (atExit.waitExit cmd, true,
        [.cmdWait cmd, .glogInfo ("Process:" ++ mproc.processName ++ " stoped.")])

/-- The polling loop of `kill`: `polls` iterations find the process still
running before the exit watcher has cleared the handle. -/
def killPoll (name : String) (wr : Writer) : Nat → List Event
  | 0 => [.write wr ("Kill process:" ++ name ++ " success.\r\n")]
  | n + 1 =>
    .write wr ("Process:" ++ name ++ " not killed, wait 1 sec.\r\n") :: .sleepSecond ::
      killPoll name wr n

/-- The method `kill`.  `polls` is the number of loop iterations that find
the process still running; after them the exit watcher of the killed handle
has run (`waitExit`). -/
def monitorProc.kill (mproc : monitorProc) (wr : Writer) (polls : Nat) :
    Except Fault (monitorProc × List Event) :=
  if mproc.isRunning then
    match mproc.procCmd with
    | none => .error .nilDeref
    | some cmd =>
      let m1 := { mproc with autoRestart := false }
      .ok (m1.waitExit cmd, .processKill cmd :: killPoll mproc.processName wr polls)
  else
    .ok (mproc, [.write wr ("No running process:" ++ mproc.processName ++ "\r\n")])

/-- The method `start`. -/
def monitorProc.start (mproc : monitorProc) (wr : Writer) (e : StartEnv) :
    monitorProc × List Event :=
  if mproc.isRunning then
    (mproc, [.write wr ("Process:" ++ mproc.processName ++ " already started.\r\n")])
  else
    let cmdEnv := e.environ ++ mproc.env
    let pipeErr : Option String :=
      match e.stderrPipeErr with
      | some err => some err
      | none => e.stdoutPipeErr
    let (m1, ev1) : monitorProc × List Event :=
      if mproc.logDir.length > 0 then
        match pipeErr with
        | some err => (mproc, [.glogError err])
        | none =>
          let outputfileName := mproc.logDir ++ "/" ++ filepathBase mproc.processName ++ ".out"
          let closeEv : List Event :=
            match mproc.output with
            | some o => [.closeOutput o.fname]
            | none => []
          ({ mproc with output := some ⟨outputfileName, false⟩ },
            closeEv ++ [.goCopy outputfileName "stderr", .goCopy outputfileName "stdout"])
      else (mproc, [])
    match e.startResult with
    | .error err =>
      ({ m1 with procCmd := none },
        ev1 ++ [.exec e.newRef mproc.processName mproc.args cmdEnv none,
          .write wr ("Failed to start process:" ++ mproc.processName ++ " for reason:" ++ err
            ++ "\r\n")])
    | .ok pid =>
      ({ m1 with procCmd := some ⟨e.newRef, pid⟩, autoRestart := true },
        ev1 ++ [.exec e.newRef mproc.processName mproc.args cmdEnv (some pid),
          .write wr ("Start process:" ++ mproc.processName ++ " " ++ fmtStrings mproc.args
            ++ " success.\r\n"),
          .goWait])

/-- The method `check`; the returned `Bool` is its result ("changed"). -/
def monitorProc.check (mproc : monitorProc) (e : CheckEnv) :
    Except Fault (monitorProc × Bool × List Event) :=
  if mproc.autoRestart && !mproc.isRunning then
    let r := mproc.start .logWriter e.startEnv
    .ok (r.1, true, r.2)
  else if !mproc.isRunning && !mproc.autoRestart then
    .ok (mproc, false, [])
  else if mproc.checkCfg.Addr.length == 0 then
    .ok (mproc, false, [])
  else
    let now := e.now
    let m1 := if mproc.lastCheckTime == 0 then { mproc with lastCheckTime := now } else mproc
    if sub64 now m1.lastCheckTime ≥ m1.checkCfg.Period then
      let m2 := { m1 with lastCheckTime := now }
      let dialEv := Event.dial m2.checkCfg.Addr m2.checkCfg.Timeout
      match e.dialErr with
      | some err =>
        match m2.procCmd with
        | none => .error .nilDeref
        | some cmd =>
          .ok (m2, true,
            [dialEv, .processKill cmd,
              .glogError ("Kill process:" ++ m2.processName
                ++ " since check failed by reason:" ++ err)])
      | none => .ok (m2, false, [dialEv, .connClose])
    else
      .ok (m1, false, [])

/-! ## Process registry -/

/-- Go's `unicode.IsSpace`. -/
def isSpace (c : Char) : Bool :=
  c = '\t' || c = '\n' || c = '\x0b' || c = '\x0c' || c = '\r' || c = ' '
    || c = '\u0085' || c = '\u00a0' || c = '\u1680'
    || (0x2000 ≤ c.toNat && c.toNat ≤ 0x200a)
    || c = '\u2028' || c = '\u2029' || c = '\u202f' || c = '\u205f' || c = '\u3000'

/-- The loop of `strings.Fields`: `cur` is the field being read. -/
def fieldsAux : List Char → List Char → List String
  | [], cur => if cur = [] then [] else [String.mk cur]
  | c :: cs, cur =>
    if isSpace c then
      if cur = [] then fieldsAux cs [] else String.mk cur :: fieldsAux cs []
    else fieldsAux cs (cur ++ [c])

/-- Go's `strings.Fields`. -/
def fields (s : String) : List String := fieldsAux s.data []

/-- A Go `map[string]*monitorProc`.  Every pointer is stored under one key
only (the only insertion is `monitorProcs[mproc.processName] = mproc` with a
fresh `mproc`), so updating the record under a key is the update through the
pointer. -/
abbrev ProcMap := List (String × monitorProc)

/-- The map read `m[key]`. -/
def mapGet : ProcMap → String → Option monitorProc
  | [], _ => none
  | (k, v) :: rest, key => if k = key then some v else mapGet rest key

/-- The map write `m[key] = v`. -/
def mapSet : ProcMap → String → monitorProc → ProcMap
  | [], key, v => [(key, v)]
  | (k, w) :: rest, key, v =>
    if k = key then (k, v) :: rest else (k, w) :: mapSet rest key v

/-- The struct `monitorProcTable` (without its mutex). -/
structure monitorProcTable where
  procNames : List String
  monitorProcs : ProcMap
  deriving DecidableEq, Repr

/-- The function `newMonitorProcTable`. -/
def newMonitorProcTable : monitorProcTable := ⟨[], []⟩

/-- The zero value `new(monitorProc)`. -/
def newMonitorProc : monitorProc :=
  { processName := "", args := [], env := [], logDir := "", procCmd := none, output := none,
    autoRestart := false, checkCfg := ⟨"", 0, 0⟩, lastCheckTime := 0 }

/-- One iteration of the loop of `buildMonitorProcs`. -/
def buildStep (t : monitorProcTable) (proc : ProcConfig) : Except Fault monitorProcTable :=
  let cmd := fields proc.Proc
  let found := mapGet t.monitorProcs proc.Proc
  match cmd with
  | [] => .error .indexOutOfRange
  | cmd0 :: cmdRest =>
    let procNames := t.procNames ++ [cmd0]
    match found with
    | none =>
      let mproc := { newMonitorProc with processName := cmd0, autoRestart := true }
      let mproc := { mproc with
        args := cmdRest, env := proc.Env, logDir := proc.LogDir, checkCfg := proc.Check }
      .ok ⟨procNames, mapSet t.monitorProcs cmd0 mproc⟩
    | some mproc =>
      let mproc := { mproc with
        args := cmdRest, env := proc.Env, logDir := proc.LogDir, checkCfg := proc.Check }
      .ok ⟨procNames, mapSet t.monitorProcs proc.Proc mproc⟩

/-- The loop of `buildMonitorProcs` over `Cfg.Monitor`. -/
def buildLoop : monitorProcTable → List ProcConfig → Except Fault monitorProcTable
  | t, [] => .ok t
  | t, proc :: rest =>
    match buildStep t proc with
    | .error f => .error f
    | .ok t1 => buildLoop t1 rest

/-- The function `buildMonitorProcs`; `cfg` is `Cfg.Monitor`. -/
def buildMonitorProcs (t : monitorProcTable) (cfg : List ProcConfig) :
    Except Fault monitorProcTable :=
  buildLoop { t with procNames := [] } cfg

/-- The function `getService`; `none` is the nil pointer. -/
def getService (t : monitorProcTable) (proc : String) : Option monitorProc :=
  mapGet t.monitorProcs proc

/-- The line `listProcs` prints for one process. -/
def listLine (mproc : monitorProc) : String :=
  match mproc.procCmd with
  | some cmd => fmtInt cmd.pid ++ "   " ++ mproc.processName ++ "\t" ++ "running" ++ "\r\n"
  | none => fmtInt (-1) ++ "   " ++ mproc.processName ++ "\t" ++ "stoped" ++ "\r\n"

/-- The function `listProcs`.  Go leaves the iteration order of a map open;
the entries are visited in the order the model stores them. -/
def listProcs (t : monitorProcTable) (wr : Writer) : List Event :=
  .write wr "PID   Process\tStatus\r\n" ::
    t.monitorProcs.map (fun kv => Event.write wr (listLine kv.2))

/-- The function `killService`. -/
def killService (t : monitorProcTable) (proc : String) (wr : Writer) (polls : Nat) :
    Except Fault (monitorProcTable × List Event) :=
  match getService t proc with
  | some mproc =>
    match mproc.kill wr polls with
    | .error f => .error f
    | .ok (m1, ev) => .ok ({ t with monitorProcs := mapSet t.monitorProcs proc m1 }, ev)
  | none => .ok (t, [.write wr ("No running process:" ++ proc ++ "\r\n")])

/-- The function `restartService`.  With a nil `mproc` the call
`mproc.start(wr)` locks `mproc.lk` through the nil pointer. -/
def restartService (t : monitorProcTable) (proc : String) (wr : Writer) (polls : Nat)
    (e : StartEnv) : Except Fault (monitorProcTable × List Event) :=
  match getService t proc with
  | some mproc =>
    match mproc.kill wr polls with
    | .error f => .error f
    | .ok (m1, ev1) =>
      let r := m1.start wr e
      .ok ({ t with monitorProcs := mapSet t.monitorProcs proc r.1 }, ev1 ++ r.2)
  | none => .error .nilDeref

/-- The function `startService`.  With a nil `mproc` the guard is false and
the call `mproc.start(wr)` locks `mproc.lk` through the nil pointer. -/
def startService (t : monitorProcTable) (proc : String) (wr : Writer) (e : StartEnv) :
    Except Fault (monitorProcTable × List Event) :=
  let mproc := getService t proc
  if mproc.isSome && (mproc.bind (fun m => m.procCmd)).isSome then
    .ok (t, [.write wr ("Process:" ++ proc ++ " already started.\r\n")])
  else
    match mproc with
    | none => .error .nilDeref
    | some m =>
      let r := m.start wr e
      .ok ({ t with monitorProcs := mapSet t.monitorProcs proc r.1 }, r.2)

/-! ## Graceful self-restart -/

/-- The flag search of `restartSelf` (`hasGracefulFlal`). -/
def hasGracefulFlag : List String → Bool
  | [] => false
  | arg :: rest => if arg = "-graceful" then true else hasGracefulFlag rest

/-- The argument list `restartSelf` hands to `exec.Command`; `args` is
`os.Args[1:]`. -/
def gracefulArgs (args : List String) : List String :=
  if !hasGracefulFlag args then args ++ ["-graceful"] else args

/-- The first loop of `restartSelf`, over `procTable.procNames`. -/
def stopAll (polls : String → Nat) (wr : Writer) :
    monitorProcTable → List String → Except Fault (monitorProcTable × List Event)
  | t, [] => .ok (t, [])
  | t, proc :: rest =>
    match getService t proc with
    | none => stopAll polls wr t rest
    | some mproc =>
      match ({ mproc with autoRestart := false }).kill wr (polls proc) with
      | .error f => .error f
      | .ok (m1, ev1) =>
        match stopAll polls wr { t with monitorProcs := mapSet t.monitorProcs proc m1 } rest with
        | .error f => .error f
        | .ok (t2, ev2) => .ok (t2, ev1 ++ ev2)

/-- The function `restartSelf`.  `path` is `os.Args[0]`, `args` is
`os.Args[1:]`, `launchErr` the error of `cmd.Start()`, if any. -/
def restartSelf (t : monitorProcTable) (path : String) (args : List String)
    (polls : String → Nat) (wr : Writer) (launchErr : Option String) :
    Except Fault (monitorProcTable × List Event) :=
  match stopAll polls wr t t.procNames with
  | .error f => .error f
  | .ok (t1, ev1) =>
    let tail : List Event :=
      match launchErr with
      | some err =>
        [.launch path (gracefulArgs args) false,
          .write wr ("gracefulRestart: Failed to launch, error: " ++ err ++ "\n")]
      | none => [.launch path (gracefulArgs args) true]
    .ok (t1, ev1 ++ .write wr "Restart pmond self.\n" :: tail)

/-! ## Runs of the health monitor on one process -/

/-- Consecutive `check` calls on one process, one per tick, with the answers
of the operating system for each; returns the process after the last call, the
results of the calls and the effects. -/
def checkRun : monitorProc → List CheckEnv → Except Fault (monitorProc × List Bool × List Event)
  | m, [] => .ok (m, [], [])
  | m, e :: es =>
    match m.check e with
    | .error f => .error f
    | .ok (m1, b, ev) =>
      match checkRun m1 es with
      | .error f => .error f
      | .ok (m2, bs, evs) => .ok (m2, b :: bs, ev ++ evs)

/-! ## Concrete processes used at the concrete inputs below -/

/-- A health-check block for `127.0.0.1:9` probed every 2 seconds. -/
def echoCheck : checkConfig := ⟨"127.0.0.1:9", 2, 1⟩

/-- The process `echoserver --port 9`, running as pid 4242. -/
def echoRunning : monitorProc :=
  { processName := "echoserver", args := ["--port", "9"], env := [], logDir := "",
    procCmd := some ⟨1, 4242⟩, output := none, autoRestart := true,
    checkCfg := echoCheck, lastCheckTime := 0 }

/-- The process `echoserver` after an operator kill: stopped, not restartable. -/
def echoKilled : monitorProc :=
  { echoRunning with procCmd := none, autoRestart := false }

/-- An operating system on which every spawn succeeds with pid 5000. -/
def okStart : StartEnv :=
  { environ := ["PATH=/bin"], newRef := 2, stderrPipeErr := none, stdoutPipeErr := none,
    startResult := .ok 5000 }

/-- A tick at time 1000 at which the probed listener is down. -/
def downTick : CheckEnv := { now := 1000, dialErr := some "connection refused", startEnv := okStart }

/-- The running `echoserver` with no health check configured. -/
def echoUnchecked : monitorProc := { echoRunning with checkCfg := ⟨"", 2, 1⟩ }

/-- A second incarnation of `echoserver`, started after the first was
captured by its exit watcher. -/
def echoRestarted : monitorProc := { echoRunning with procCmd := some ⟨2, 5000⟩ }

/-- The running `echoserver`, last probed at time 998. -/
def echoProbed : monitorProc := { echoRunning with lastCheckTime := 998 }

/-- The configuration with the one entry `echoserver --port 9`. -/
def echoConfig : List ProcConfig := [⟨"echoserver --port 9", [], "", echoCheck⟩]

/-- The entry the first rebuild creates for `echoserver --port 9`. -/
def echoFresh : monitorProc := { echoRunning with procCmd := none }

/-- An operating system on which the spawn succeeds with pid 4242. -/
def firstStart : StartEnv := { okStart with newRef := 1, startResult := .ok 4242 }

/-! ## Lemmas on the managed process -/

theorem isRunning_of_procCmd_some {m : monitorProc} {c : Cmd} (h : m.procCmd = some c) :
    m.isRunning = true := by
  simp [monitorProc.isRunning, h]

theorem isRunning_of_procCmd_none {m : monitorProc} (h : m.procCmd = none) :
    m.isRunning = false := by
  simp [monitorProc.isRunning, h]

theorem start_of_running (m : monitorProc) (wr : Writer) (e : StartEnv)
    (h : m.isRunning = true) :
    m.start wr e
      = (m, [.write wr ("Process:" ++ m.processName ++ " already started.\r\n")]) := by
  simp [monitorProc.start, h]

theorem check_of_stopped_disabled (m : monitorProc) (e : CheckEnv)
    (hs : m.procCmd = none) (ha : m.autoRestart = false) :
    m.check e = .ok (m, false, []) := by
  simp [monitorProc.check, monitorProc.isRunning, hs, ha]

theorem checkRun_of_stopped_disabled (m : monitorProc) (es : List CheckEnv)
    (hs : m.procCmd = none) (ha : m.autoRestart = false) :
    checkRun m es = .ok (m, List.replicate es.length false, []) := by
  induction es with
  | nil => rfl
  | cons e es ih =>
    simp [checkRun, check_of_stopped_disabled m e hs ha, ih, List.replicate_succ]

theorem waitExit_of_stopped (m : monitorProc) (c : Cmd) (hs : m.procCmd = none) :
    m.waitExit c = m := by
  simp [monitorProc.waitExit, hs]

theorem kill_of_stopped (m : monitorProc) (wr : Writer) (polls : Nat) (hs : m.procCmd = none) :
    m.kill wr polls
      = .ok (m, [.write wr ("No running process:" ++ m.processName ++ "\r\n")]) := by
  simp [monitorProc.kill, monitorProc.isRunning, hs]

theorem start_of_stopped_ok (m : monitorProc) (wr : Writer) (e : StartEnv) (pid : Int)
    (hs : m.procCmd = none) (hok : e.startResult = .ok pid) :
    (m.start wr e).1.procCmd = some ⟨e.newRef, pid⟩ ∧ (m.start wr e).1.autoRestart = true := by
  simp only [monitorProc.start, monitorProc.isRunning, hs, hok]
  constructor <;> rfl

theorem kill_of_running (m : monitorProc) (wr : Writer) (polls : Nat) (c : Cmd)
    (h : m.procCmd = some c) :
    m.kill wr polls
      = .ok ({ m with autoRestart := false, procCmd := none },
          .processKill c :: killPoll m.processName wr polls) := by
  simp [monitorProc.kill, monitorProc.isRunning, monitorProc.waitExit, h]

theorem wait_of_stopped (m atExit : monitorProc) (hs : m.procCmd = none) :
    m.wait atExit = .ok (m, false, []) := by
  simp [monitorProc.wait, monitorProc.isRunning, hs]

theorem waitExit_same (m : monitorProc) (c : Cmd) (h : m.procCmd = some c) :
    m.waitExit c = { m with procCmd := none } := by
  simp [monitorProc.waitExit, h]

theorem waitExit_other (m : monitorProc) (c : Cmd) (h : m.procCmd ≠ some c) :
    m.waitExit c = m := by
  have h2 : ¬ (some c = m.procCmd) := fun x => h x.symm
  simp [monitorProc.waitExit, h2]

/-! ## The managed process: operator commands and health checks -/

/-- The operations on one process record: a process that is Stopped with
autoRestart false is left exactly as it is by every finite run of check calls, each of which returns false and performs
no effect (so nothing is spawned); kill and the exit watcher leave it as it is
too, and a start whose spawn succeeds makes it Running.  An operator kill of a
Running process, its exit observed, ends in such a state. -/
theorem stopped_disabled_record_stays_stopped (m : monitorProc) (es : List CheckEnv)
    (hs : m.procCmd = none) (ha : m.autoRestart = false) :
    checkRun m es = .ok (m, List.replicate es.length false, [])
    ∧ (∀ wr polls,
        m.kill wr polls
          = .ok (m, [.write wr ("No running process:" ++ m.processName ++ "\r\n")]))
    ∧ (∀ c, m.waitExit c = m)
    ∧ (∀ atExit, m.wait atExit = .ok (m, false, []))
    ∧ (∀ wr e pid, e.startResult = .ok pid →
        (m.start wr e).1.isRunning = true ∧ (m.start wr e).1.autoRestart = true)
    ∧ (∀ (m0 : monitorProc) (c : Cmd) (wr : Writer) (polls : Nat), m0.procCmd = some c →
        m0.kill wr polls
          = .ok ({ m0 with autoRestart := false, procCmd := none },
              .processKill c :: killPoll m0.processName wr polls)) := by
  refine ⟨checkRun_of_stopped_disabled m es hs ha, fun wr polls => kill_of_stopped m wr polls hs,
    fun c => waitExit_of_stopped m c hs, fun atExit => wait_of_stopped m atExit hs, ?_,
    fun m0 c wr polls h0 => kill_of_running m0 wr polls c h0⟩
  intro wr e pid hok
  have h := start_of_stopped_ok m wr e pid hs hok
  exact ⟨isRunning_of_procCmd_some h.1, h.2⟩

/-- Three ticks on the killed `echoserver` record, and the operator kill that
leads to it. -/
theorem stopped_disabled_record_stays_stopped_at_echoKilled :
    echoKilled.procCmd = none ∧ echoKilled.autoRestart = false
    ∧ checkRun echoKilled [downTick, downTick, downTick]
        = .ok (echoKilled, [false, false, false], [])
    ∧ echoRunning.kill .caller 0
        = .ok (echoKilled, [.processKill ⟨1, 4242⟩,
            .write .caller "Kill process:echoserver success.\r\n"]) :=
  have w := stopped_disabled_record_stays_stopped echoKilled [downTick, downTick, downTick]
    rfl rfl
  ⟨rfl, rfl, w.1, w.2.2.2.2.2 echoRunning ⟨1, 4242⟩ .caller 0 rfl⟩

/-- C4: start on a Running process writes the one line
"Process:<name> already started." to the caller, performs no other effect (no
spawn, no exit watcher) and returns the process unchanged; a second start finds
the same process and leaves it unchanged again. -/
theorem start_running_is_noop (m : monitorProc) (wr : Writer) (e e2 : StartEnv)
    (h : m.isRunning = true) :
    m.start wr e
      = (m, [.write wr ("Process:" ++ m.processName ++ " already started.\r\n")])
    ∧ ((m.start wr e).1.start wr e2).1 = (m.start wr e).1 := by
  have h1 := start_of_running m wr e h
  refine ⟨h1, ?_⟩
  rw [h1]
  simp [start_of_running m wr e2 h]

/-- Witness of C4: start on the running `echoserver`. -/
theorem start_running_is_noop_witness :
    echoRunning.isRunning = true
    ∧ echoRunning.start .caller okStart
        = (echoRunning, [.write .caller "Process:echoserver already started.\r\n"]) :=
  ⟨rfl, (start_running_is_noop echoRunning .caller okStart okStart rfl).1⟩

/-- C5: kill on a Stopped process writes the one line
"No running process:<name>" to the caller, sends no signal, never sleeps, and
returns the process unchanged, autoRestart included. -/
theorem kill_stopped_is_noop (m : monitorProc) (wr : Writer) (polls : Nat)
    (hs : m.isRunning = false) :
    m.kill wr polls
      = .ok (m, [.write wr ("No running process:" ++ m.processName ++ "\r\n")]) := by
  simp [monitorProc.kill, hs]

/-- Witness of C5: kill on a stopped, still auto-restartable `echoserver`. -/
theorem kill_stopped_is_noop_witness :
    echoFresh.isRunning = false ∧ echoFresh.autoRestart = true
    ∧ echoFresh.kill .caller 7
        = .ok (echoFresh, [.write .caller "No running process:echoserver\r\n"]) :=
  ⟨rfl, rfl, kill_stopped_is_noop echoFresh .caller 7 rfl⟩

/-- C6: check on a Running process with an empty health-check address returns
false, performs no effect (no dial, no kill) and returns the process unchanged,
whatever the clock, the period and the timeout are. -/
theorem check_without_address_is_noop (m : monitorProc) (e : CheckEnv)
    (hr : m.isRunning = true) (ha : m.checkCfg.Addr = "") :
    m.check e = .ok (m, false, []) := by
  simp [monitorProc.check, hr, ha]

/-- Witness of C6: a tick on the running `echoserver` without health check. -/
theorem check_without_address_is_noop_witness :
    echoUnchecked.isRunning = true ∧ echoUnchecked.checkCfg.Addr = ""
    ∧ echoUnchecked.check downTick = .ok (echoUnchecked, false, []) :=
  ⟨rfl, rfl, check_without_address_is_noop echoUnchecked downTick rfl rfl⟩

/-- C9: an exit watcher that captured the handle h returns true and, applied
to the process as it is when the exit is reported, clears the handle when it is
still h and leaves a different handle in place (the process stays Running); no
other field is changed in either case. -/
theorem wait_clears_only_its_own_handle (m atExit : monitorProc) (h : Cmd)
    (hcap : m.procCmd = some h) :
    m.wait atExit
        = .ok (atExit.waitExit h, true,
            [.cmdWait h, .glogInfo ("Process:" ++ m.processName ++ " stoped.")])
      ∧ ((atExit.waitExit h).procCmd = none
          ↔ (atExit.procCmd = some h ∨ atExit.procCmd = none))
      ∧ (atExit.procCmd = some h → atExit.waitExit h = { atExit with procCmd := none })
      ∧ (∀ h2, h2 ≠ h → atExit.procCmd = some h2 →
          atExit.waitExit h = atExit ∧ (atExit.waitExit h).isRunning = true)
      ∧ (atExit.waitExit h).autoRestart = atExit.autoRestart
      ∧ (atExit.waitExit h).args = atExit.args
      ∧ (atExit.waitExit h).output = atExit.output
      ∧ (atExit.waitExit h).processName = atExit.processName
      ∧ (atExit.waitExit h).env = atExit.env
      ∧ (atExit.waitExit h).logDir = atExit.logDir
      ∧ (atExit.waitExit h).checkCfg = atExit.checkCfg
      ∧ (atExit.waitExit h).lastCheckTime = atExit.lastCheckTime := by
  refine ⟨?_, ?_⟩
  · simp [monitorProc.wait, monitorProc.isRunning, hcap]
  · by_cases hc : atExit.procCmd = some h
    · rw [waitExit_same atExit h hc]
      refine ⟨?_, ?_, ?_, rfl, rfl, rfl, rfl, rfl, rfl, rfl, rfl⟩
      · exact ⟨fun _ => Or.inl hc, fun _ => rfl⟩
      · intro _; rfl
      · intro h2 hne heq
        rw [hc] at heq
        exact absurd (Option.some.inj heq).symm hne
    · rw [waitExit_other atExit h hc]
      refine ⟨?_, ?_, ?_, rfl, rfl, rfl, rfl, rfl, rfl, rfl, rfl⟩
      · exact ⟨fun x => Or.inr x, fun x => x.resolve_left hc⟩
      · intro x; exact absurd x hc
      · intro h2 _ heq
        exact ⟨rfl, isRunning_of_procCmd_some heq⟩

/-- Witness of C9: the watcher of the first `echoserver` handle reports the
exit after a newer handle has been installed. -/
theorem wait_clears_only_its_own_handle_witness :
    echoRunning.procCmd = some ⟨1, 4242⟩
    ∧ echoRunning.wait echoRestarted
      = .ok (echoRestarted.waitExit ⟨1, 4242⟩, true,
          [.cmdWait ⟨1, 4242⟩, .glogInfo ("Process:" ++ echoRunning.processName ++ " stoped.")])
    ∧ echoRestarted.waitExit ⟨1, 4242⟩ = echoRestarted
    ∧ echoRunning.waitExit ⟨1, 4242⟩ = { echoRunning with procCmd := none } :=
  have w1 := wait_clears_only_its_own_handle echoRunning echoRestarted ⟨1, 4242⟩ rfl
  have w2 := wait_clears_only_its_own_handle echoRunning echoRunning ⟨1, 4242⟩ rfl
  ⟨rfl, w1.1, (w1.2.2.2.1 ⟨2, 5000⟩ (by decide) rfl).1, w2.2.2.1 rfl⟩

/-! ## Health-check failure -/

theorem length_ne_zero_of_ne_empty (s : String) (h : s ≠ "") : (s.length == 0) = false := by
  cases s with
  | mk cs =>
    cases cs with
    | nil => exact absurd rfl h
    | cons c cs => simp [String.length]

theorem sub64_self (a : Int) : sub64 a a = 0 := by
  simp [sub64, wrap64]

theorem sub64_of_representable (a b : Int) (hlo : -(2 ^ 63) ≤ a - b) (hhi : a - b < 2 ^ 63) :
    sub64 a b = a - b := by
  unfold sub64 wrap64
  have h : (a - b + 2 ^ 63) % 2 ^ 64 = a - b + 2 ^ 63 :=
    Int.emod_eq_of_lt (by omega) (by omega)
  omega

theorem check_of_dial_failure (m : monitorProc) (e : CheckEnv) (c : Cmd) (err : String)
    (hr : m.procCmd = some c) (haddr : m.checkCfg.Addr ≠ "")
    (hel : m.checkCfg.Period ≤ sub64 e.now m.lastCheckTime)
    (hz : m.lastCheckTime ≠ 0 ∨ m.checkCfg.Period ≤ 0)
    (hd : e.dialErr = some err) :
    m.check e
      = .ok ({ m with lastCheckTime := e.now }, true,
          [.dial m.checkCfg.Addr m.checkCfg.Timeout, .processKill c,
            .glogError ("Kill process:" ++ m.processName
              ++ " since check failed by reason:" ++ err)]) := by
  have hlen := length_ne_zero_of_ne_empty _ haddr
  by_cases h0 : m.lastCheckTime = 0
  · have hp : m.checkCfg.Period ≤ 0 := hz.resolve_left (fun x => x h0)
    simp [monitorProc.check, monitorProc.isRunning, hr, hlen, h0, sub64_self, hp, hd]
  · simp [monitorProc.check, monitorProc.isRunning, hr, hlen, h0, hel, hd]

theorem check_of_stopped_enabled (m : monitorProc) (e : CheckEnv)
    (hs : m.procCmd = none) (ha : m.autoRestart = true) :
    m.check e = .ok ((m.start .logWriter e.startEnv).1, true, (m.start .logWriter e.startEnv).2) := by
  simp [monitorProc.check, monitorProc.isRunning, hs, ha]

theorem start_of_stopped_events (m : monitorProc) (wr : Writer) (e : StartEnv) (pid : Int)
    (hs : m.procCmd = none) (hok : e.startResult = .ok pid) :
    Event.exec e.newRef m.processName m.args (e.environ ++ m.env) (some pid) ∈ (m.start wr e).2
      ∧ Event.goWait ∈ (m.start wr e).2 := by
  simp [monitorProc.start, monitorProc.isRunning, hs, hok]

/-- Counterexample to C3 as stated: `echoserver` is Running with autoRestart
true and a health-check address, its lastCheckTime is 0 (never probed) so that
far more than the period of 2 seconds separates it from the clock value 1000,
and the listener is down; check records the time, dials nothing, sends no kill
and returns false. -/
theorem check_first_tick_skips_probe :
    echoRunning.isRunning = true ∧ echoRunning.autoRestart = true
    ∧ echoRunning.checkCfg.Addr ≠ ""
    ∧ echoRunning.checkCfg.Period ≤ downTick.now - echoRunning.lastCheckTime
    ∧ echoRunning.checkCfg.Period ≤ sub64 downTick.now echoRunning.lastCheckTime
    ∧ downTick.dialErr = some "connection refused"
    ∧ echoRunning.check downTick
        = .ok ({ echoRunning with lastCheckTime := 1000 }, false, []) := by
  refine ⟨rfl, rfl, by decide, by decide, by decide, rfl, ?_⟩
  decide

/-- C3 (amended): for a Running process with autoRestart true, a non-empty
health-check address and at least period seconds between lastCheckTime and the
clock (the int64 difference), where lastCheckTime is not 0 or the period is not
positive: when the dial fails, check dials, kills the attached OS process,
returns true and leaves autoRestart true and the handle in place; once the exit
watcher of that handle has cleared it, the next check is exactly a start (with
the log writer) and returns true, and when the spawn succeeds the process is
Running with the handle of the new process, an exit watcher scheduled. -/
theorem check_dial_failure_kills_then_restarts (m : monitorProc) (e e2 : CheckEnv) (c : Cmd)
    (err : String)
    (hr : m.procCmd = some c) (ha : m.autoRestart = true) (haddr : m.checkCfg.Addr ≠ "")
    (hel : m.checkCfg.Period ≤ sub64 e.now m.lastCheckTime)
    (hz : m.lastCheckTime ≠ 0 ∨ m.checkCfg.Period ≤ 0)
    (hd : e.dialErr = some err) :
    m.check e
        = .ok ({ m with lastCheckTime := e.now }, true,
            [.dial m.checkCfg.Addr m.checkCfg.Timeout, .processKill c,
              .glogError ("Kill process:" ++ m.processName
                ++ " since check failed by reason:" ++ err)])
      ∧ ({ m with lastCheckTime := e.now } : monitorProc).autoRestart = true
      ∧ ({ m with lastCheckTime := e.now } : monitorProc).procCmd = some c
      ∧ (({ m with lastCheckTime := e.now } : monitorProc).waitExit c).procCmd = none
      ∧ (({ m with lastCheckTime := e.now } : monitorProc).waitExit c).check e2
          = .ok (((({ m with lastCheckTime := e.now } : monitorProc).waitExit c).start
                    .logWriter e2.startEnv).1, true,
                 ((({ m with lastCheckTime := e.now } : monitorProc).waitExit c).start
                    .logWriter e2.startEnv).2)
      ∧ (∀ pid, e2.startEnv.startResult = .ok pid →
          (((({ m with lastCheckTime := e.now } : monitorProc).waitExit c).start
              .logWriter e2.startEnv).1).procCmd = some ⟨e2.startEnv.newRef, pid⟩
          ∧ (((({ m with lastCheckTime := e.now } : monitorProc).waitExit c).start
              .logWriter e2.startEnv).1).autoRestart = true
          ∧ Event.exec e2.startEnv.newRef m.processName m.args (e2.startEnv.environ ++ m.env)
              (some pid)
            ∈ ((({ m with lastCheckTime := e.now } : monitorProc).waitExit c).start
                .logWriter e2.startEnv).2
          ∧ Event.goWait
            ∈ ((({ m with lastCheckTime := e.now } : monitorProc).waitExit c).start
                .logWriter e2.startEnv).2) := by
  have hw : ({ m with lastCheckTime := e.now } : monitorProc).waitExit c
      = { m with lastCheckTime := e.now, procCmd := none } :=
    waitExit_same _ c hr
  rw [hw]
  refine ⟨check_of_dial_failure m e c err hr haddr hel hz hd, ha, hr, rfl,
    check_of_stopped_enabled _ e2 rfl ha, ?_⟩
  intro pid hok
  have h1 := start_of_stopped_ok
    ({ m with lastCheckTime := e.now, procCmd := none } : monitorProc) .logWriter e2.startEnv pid
    rfl hok
  have h2 := start_of_stopped_events
    ({ m with lastCheckTime := e.now, procCmd := none } : monitorProc) .logWriter e2.startEnv pid
    rfl hok
  exact ⟨h1.1, h1.2, h2.1, h2.2⟩

/-- Witness of C3: the listener of `echoserver` is down two seconds after the
last probe; the tick kills pid 4242 and, the exit observed, the next tick
spawns pid 5000. -/
theorem check_dial_failure_kills_then_restarts_witness :
    echoProbed.procCmd = some ⟨1, 4242⟩ ∧ echoProbed.autoRestart = true
    ∧ echoProbed.checkCfg.Addr ≠ ""
    ∧ echoProbed.checkCfg.Period ≤ sub64 downTick.now echoProbed.lastCheckTime
    ∧ echoProbed.lastCheckTime ≠ 0
    ∧ echoProbed.check downTick
        = .ok ({ echoProbed with lastCheckTime := 1000 }, true,
            [.dial "127.0.0.1:9" 1, .processKill ⟨1, 4242⟩,
              .glogError ("Kill process:" ++ echoProbed.processName
                ++ " since check failed by reason:" ++ "connection refused")])
    ∧ ((({ echoProbed with lastCheckTime := 1000 } : monitorProc).waitExit ⟨1, 4242⟩).start
          .logWriter downTick.startEnv).1.procCmd = some ⟨2, 5000⟩ :=
  have w := check_dial_failure_kills_then_restarts echoProbed downTick downTick ⟨1, 4242⟩
    "connection refused" rfl rfl (by decide) (by decide) (Or.inl (by decide)) rfl
  ⟨rfl, rfl, by decide, by decide, by decide, w.1, (w.2.2.2.2.2 5000 rfl).1⟩

/-! ## Graceful self-restart: the argument list -/

theorem hasGracefulFlag_iff_mem (args : List String) :
    hasGracefulFlag args = true ↔ "-graceful" ∈ args := by
  induction args with
  | nil => simp [hasGracefulFlag]
  | cons a rest ih =>
    by_cases h : a = "-graceful"
    · simp [hasGracefulFlag, h]
    · have h2 : ¬ ("-graceful" = a) := fun x => h x.symm
      simp [hasGracefulFlag, h, h2, ih]

/-- Counterexample to C7 as stated: an original argument list with the marker
twice is handed over with the marker twice. -/
theorem gracefulArgs_keeps_duplicates :
    gracefulArgs ["-graceful", "-v", "-graceful"] = ["-graceful", "-v", "-graceful"]
    ∧ (gracefulArgs ["-graceful", "-v", "-graceful"]).count "-graceful" = 2 := by
  decide

/-- C7 (amended): the argument list restartSelf hands to the new supervisor is
the original list when that contains "-graceful", and the original list with
"-graceful" appended otherwise; so the marker occurs max(1, k) times for k
occurrences in the original list (exactly once for k = 0 and k = 1), the
original list is a prefix of the result and the arguments other than the
marker are the original ones in their order. -/
theorem gracefulArgs_marker_count (args : List String) :
    gracefulArgs args = (if "-graceful" ∈ args then args else args ++ ["-graceful"])
    ∧ (gracefulArgs args).count "-graceful" = max 1 (args.count "-graceful")
    ∧ args <+: gracefulArgs args
    ∧ (gracefulArgs args).filter (fun a => a ≠ "-graceful")
        = args.filter (fun a => a ≠ "-graceful") := by
  by_cases h : "-graceful" ∈ args
  · have hf : hasGracefulFlag args = true := (hasGracefulFlag_iff_mem args).2 h
    have hc : 1 ≤ args.count "-graceful" := List.count_pos_iff.2 h
    simp [gracefulArgs, hf, h, max_eq_right hc]
  · have hf : hasGracefulFlag args = false := by
      cases hb : hasGracefulFlag args with
      | false => rfl
      | true => exact absurd ((hasGracefulFlag_iff_mem args).1 hb) h
    have hc : args.count "-graceful" = 0 := List.count_eq_zero.2 h
    simp [gracefulArgs, hf, h, hc]

theorem restartSelf_launches_gracefulArgs (t t1 : monitorProcTable) (path : String)
    (args : List String) (polls : String → Nat) (wr : Writer) (ev : List Event)
    (h : restartSelf t path args polls wr none = .ok (t1, ev)) :
    ev.getLast? = some (.launch path (gracefulArgs args) true) := by
  unfold restartSelf at h
  split at h
  · exact absurd h (by simp)
  · simp only [Except.ok.injEq, Prod.mk.injEq] at h
    rw [← h.2]
    simp [List.getLast?_append, List.getLast?_cons_cons]

/-! ## The registry -/

theorem mapGet_mapSet (mp : ProcMap) (k : String) (v : monitorProc) (k2 : String) :
    mapGet (mapSet mp k v) k2 = if k = k2 then some v else mapGet mp k2 := by
  induction mp with
  | nil => simp [mapSet, mapGet]
  | cons kv rest ih =>
    obtain ⟨k0, w⟩ := kv
    by_cases h0 : k0 = k
    · subst h0
      by_cases h2 : k0 = k2 <;> simp [mapSet, mapGet, h2]
    · by_cases h2 : k0 = k2
      · have h3 : ¬ (k = k2) := fun x => h0 (h2.trans x.symm)
        subst h2
        simp [mapSet, mapGet, h0, h3]
      · simp [mapSet, mapGet, h0, h2, ih]

/-- One loop iteration of a rebuild keeps every registered process under its
name with its handle and autoRestart when the command line is a bare
executable name (its only field is the line itself). -/
theorem buildStep_keeps_runtime_of_bare_name (t : monitorProcTable) (proc : ProcConfig)
    (hbare : fields proc.Proc = [proc.Proc]) :
    ∃ t1, buildStep t proc = .ok t1
      ∧ ∀ name m, getService t name = some m →
          ∃ m1, getService t1 name = some m1 ∧ m1.procCmd = m.procCmd
            ∧ m1.autoRestart = m.autoRestart ∧ m1.processName = m.processName := by
  cases hf : mapGet t.monitorProcs proc.Proc with
  | none =>
    refine ⟨_, (by simp only [buildStep, hbare, hf]; rfl), ?_⟩
    intro name m hm
    refine ⟨m, ?_, rfl, rfl, rfl⟩
    have hne : ¬ (proc.Proc = name) := by
      intro x
      rw [getService, ← x, hf] at hm
      exact absurd hm (by simp)
    simp only [getService, mapGet_mapSet, hne, if_false]
    exact hm
  | some m0 =>
    refine ⟨_, (by simp only [buildStep, hbare, hf]; rfl), ?_⟩
    intro name m hm
    by_cases hk : proc.Proc = name
    · have hmm : m0 = m := by
        rw [getService, ← hk, hf] at hm
        exact Option.some.inj hm
      subst hmm
      refine ⟨{ m0 with
        args := [], env := proc.Env, logDir := proc.LogDir, checkCfg := proc.Check },
        ?_, rfl, rfl, rfl⟩
      simp only [getService, mapGet_mapSet, hk, if_true]
    · refine ⟨m, ?_, rfl, rfl, rfl⟩
      simp only [getService, mapGet_mapSet, hk, if_false]
      exact hm

/-- A rebuild keeps every registered process under its name with its handle
and autoRestart when every configured command line is a bare executable
name. -/
theorem buildMonitorProcs_keeps_runtime_of_bare_names (cfg : List ProcConfig)
    (hbare : ∀ proc ∈ cfg, fields proc.Proc = [proc.Proc]) (t : monitorProcTable) :
    ∃ t1, buildMonitorProcs t cfg = .ok t1
      ∧ ∀ name m, getService t name = some m →
          ∃ m1, getService t1 name = some m1 ∧ m1.procCmd = m.procCmd
            ∧ m1.autoRestart = m.autoRestart ∧ m1.processName = m.processName := by
  have key : ∀ (cfg : List ProcConfig), (∀ proc ∈ cfg, fields proc.Proc = [proc.Proc]) →
      ∀ t0 : monitorProcTable, ∃ t1, buildLoop t0 cfg = .ok t1
        ∧ ∀ name m, getService t0 name = some m →
          ∃ m1, getService t1 name = some m1 ∧ m1.procCmd = m.procCmd
            ∧ m1.autoRestart = m.autoRestart ∧ m1.processName = m.processName := by
    intro cfg
    induction cfg with
    | nil =>
      intro _ t0
      exact ⟨t0, rfl, fun name m hm => ⟨m, hm, rfl, rfl, rfl⟩⟩
    | cons proc rest ih =>
      intro hb t0
      obtain ⟨ta, hta, hkeep⟩ :=
        buildStep_keeps_runtime_of_bare_name t0 proc (hb proc (List.mem_cons_self _ _))
      obtain ⟨tb, htb, hkeep2⟩ := ih (fun q hq => hb q (List.mem_cons_of_mem _ hq)) ta
      refine ⟨tb, by simp only [buildLoop, hta, htb], ?_⟩
      intro name m hm
      obtain ⟨ma, hma, h1, h2, h3⟩ := hkeep name m hm
      obtain ⟨mb, hmb, h4, h5, h6⟩ := hkeep2 name ma hma
      exact ⟨mb, hmb, h4.trans h1, h5.trans h2, h6.trans h3⟩
  exact key cfg hbare { t with procNames := [] }

/-- C1 at a concrete input: the configuration `echoserver --port 9` is applied
to an empty registry, the first tick starts the process (pid 4242), and the
same configuration is applied again.  The rebuild looks the entry up under the
whole command line, misses it, and stores a fresh Stopped entry under
`echoserver`: getService no longer returns the Running process. -/
theorem buildMonitorProcs_replaces_running_entry :
    buildMonitorProcs newMonitorProcTable echoConfig
        = .ok ⟨["echoserver"], [("echoserver", echoFresh)]⟩
    ∧ echoFresh.check { downTick with startEnv := firstStart }
        = .ok (echoRunning, true,
            [.exec 1 "echoserver" ["--port", "9"] ["PATH=/bin"] (some 4242),
              .write .logWriter "Start process:echoserver [--port 9] success.\r\n", .goWait])
    ∧ getService ⟨["echoserver"], [("echoserver", echoRunning)]⟩ "echoserver" = some echoRunning
    ∧ echoRunning.isRunning = true
    ∧ buildMonitorProcs ⟨["echoserver"], [("echoserver", echoRunning)]⟩ echoConfig
        = .ok ⟨["echoserver"], [("echoserver", echoFresh)]⟩
    ∧ getService ⟨["echoserver"], [("echoserver", echoFresh)]⟩ "echoserver" = some echoFresh
    ∧ echoFresh.isRunning = false := by
  decide

/-- C8 at a concrete input: for a registry with one Stopped process
`echoserver`, listProcs writes the header and the line
"-1   echoserver<TAB>stoped": the status word is "stoped", not "stopped". -/
theorem listProcs_stopped_status_word :
    listProcs ⟨["echoserver"], [("echoserver", echoKilled)]⟩ .caller
      = [.write .caller "PID   Process\tStatus\r\n",
         .write .caller "-1   echoserver\tstoped\r\n"]
    ∧ listProcs ⟨["echoserver"], [("echoserver", echoRunning)]⟩ .caller
      = [.write .caller "PID   Process\tStatus\r\n",
         .write .caller "4242   echoserver\trunning\r\n"]
    ∧ listProcs newMonitorProcTable .caller = [.write .caller "PID   Process\tStatus\r\n"] := by
  decide

theorem startService_of_absent (t : monitorProcTable) (proc : String) (wr : Writer)
    (e : StartEnv) (h : getService t proc = none) :
    startService t proc wr e = .error .nilDeref := by
  simp [startService, h]

theorem restartService_of_absent (t : monitorProcTable) (proc : String) (wr : Writer)
    (polls : Nat) (e : StartEnv) (h : getService t proc = none) :
    restartService t proc wr polls e = .error .nilDeref := by
  simp [restartService, h]

theorem killService_of_absent (t : monitorProcTable) (proc : String) (wr : Writer)
    (polls : Nat) (h : getService t proc = none) :
    killService t proc wr polls
      = .ok (t, [.write wr ("No running process:" ++ proc ++ "\r\n")]) := by
  simp [killService, h]

/-- C10 at a concrete input: in a registry that knows only `echoserver`, the
name `nosuch` has no entry; killService writes "No running process:nosuch",
while startService and restartService end in a nil dereference. -/
theorem startService_absent_name_faults :
    getService ⟨["echoserver"], [("echoserver", echoRunning)]⟩ "nosuch" = none
    ∧ killService ⟨["echoserver"], [("echoserver", echoRunning)]⟩ "nosuch" .caller 0
        = .ok (⟨["echoserver"], [("echoserver", echoRunning)]⟩,
            [.write .caller "No running process:nosuch\r\n"])
    ∧ startService ⟨["echoserver"], [("echoserver", echoRunning)]⟩ "nosuch" .caller okStart
        = .error .nilDeref
    ∧ restartService ⟨["echoserver"], [("echoserver", echoRunning)]⟩ "nosuch" .caller 0 okStart
        = .error .nilDeref := by
  decide

/-- C2 at a concrete input: the operator kills the running `echoserver`
(registered from the line `echoserver --port 9`); the entry is Stopped with
autoRestart false and two ticks return false without effect.  The same
configuration is then applied again: the rebuild misses the entry under the
whole command line and stores a fresh entry with autoRestart true under
`echoserver`, and the next check of the entry getService returns spawns pid
5000 and returns true, with no start or restart command issued. -/
theorem check_restarts_killed_process_after_rebuild :
    killService ⟨["echoserver"], [("echoserver", echoRunning)]⟩ "echoserver" .caller 0
        = .ok (⟨["echoserver"], [("echoserver", echoKilled)]⟩,
            [.processKill ⟨1, 4242⟩, .write .caller "Kill process:echoserver success.\r\n"])
    ∧ echoKilled.isRunning = false ∧ echoKilled.autoRestart = false
    ∧ getService ⟨["echoserver"], [("echoserver", echoKilled)]⟩ "echoserver" = some echoKilled
    ∧ checkRun echoKilled [downTick, downTick] = .ok (echoKilled, [false, false], [])
    ∧ buildMonitorProcs ⟨["echoserver"], [("echoserver", echoKilled)]⟩ echoConfig
        = .ok ⟨["echoserver"], [("echoserver", echoFresh)]⟩
    ∧ getService ⟨["echoserver"], [("echoserver", echoFresh)]⟩ "echoserver" = some echoFresh
    ∧ echoFresh.autoRestart = true
    ∧ echoFresh.check downTick
        = .ok ({ echoFresh with procCmd := some ⟨2, 5000⟩ }, true,
            [.exec 2 "echoserver" ["--port", "9"] ["PATH=/bin"] (some 5000),
              .write .logWriter "Start process:echoserver [--port 9] success.\r\n", .goWait])
    ∧ ({ echoFresh with procCmd := some ⟨2, 5000⟩ } : monitorProc).isRunning = true := by
  decide

end Pmond
